import Mathlib

/-!
Verification development for the Easy-MCP-AutoCad server core
(`server.py`).  The embedding models:

* the SQLite snapshot store: table `cad_elements` (rows keyed by the
  UNIQUE `handle` column) and table `text_patterns` (rows keyed by the
  UNIQUE `pattern` column), both written through `INSERT OR REPLACE`;
* the live AutoCAD document reached over COM: a list of live entities,
  the documents-open check, named selection sets ("groups"), and color
  mutation.  COM calls that can raise are modelled as boolean failure
  flags on each entity (`itemReadFails` for `ModelSpace.Item` /
  `ObjectName` access, `propReadFails` for the type-specific property
  reads inside the scan loop, `colorSetFails` for assigning `.Color`);
* the SQLite engine behind `execute_query` and `query_and_highlight` as
  an oracle from query text to an execution outcome (rows returned,
  write row count, or an engine error).

Numeric drawing coordinates are modelled as integers; no verified
property depends on their values.
-/

/-- A loosely typed SQLite value as it appears in a result row. -/
inductive SqlValue
  | str (s : String)
  | int (n : Int)
  | null
  deriving DecidableEq

/-- One live entity of the open drawing, together with the COM failure
points the server code guards with `try`/`except`.  In a real document
handles are unique; the model does not assume it. -/
structure LiveEntity where
  handle : String
  objectName : String
  layer : String
  startPoint : List Int
  endPoint : List Int
  center : List Int
  radius : Int
  textString : String
  hasTextString : Bool
  insertionPoint : Option (List Int)
  height : Option Int
  color : Int
  itemReadFails : Bool
  propReadFails : Bool
  colorSetFails : Bool
  deriving DecidableEq

/-- The live AutoCAD application state: number of open documents, the
active document's name and model space, and the named selection sets
(`doc.SelectionSets`) currently alive. -/
structure AcadState where
  documentsCount : Nat
  name : String
  modelSpace : List LiveEntity
  groups : List String
  deriving DecidableEq

/-- The type-dependent property bag serialized into the `properties`
column by the scan (`json.dumps` of the per-type dict). -/
inductive EntityProps
  | line (startPoint endPoint : List Int)
  | circle (center : List Int) (radius : Int)
  | text (text : String) (position : Option (List Int)) (height : Option Int)
  | empty
  deriving DecidableEq

/-- One row of the `cad_elements` table.  `handle` is nullable (the
second `draw_line` variant inserts without it); `INSERT OR REPLACE`
conflicts only on equal non-NULL handles. -/
structure EntityRecord where
  handle : Option String
  name : String
  type : String
  layer : String
  properties : EntityProps
  deriving DecidableEq

/-- One row of the `text_patterns` table (UNIQUE `pattern`). -/
structure PatternStat where
  pattern : String
  count : Nat
  drawing : String
  deriving DecidableEq

/-- The SQLite database file `autocad_data.db` after `init_db`. -/
structure Database where
  cad_elements : List EntityRecord
  text_patterns : List PatternStat
  deriving DecidableEq

/-- `INSERT OR REPLACE INTO cad_elements ...`: on a conflict with the
UNIQUE `handle` column the existing row is deleted and the new row is
appended; a NULL handle never conflicts. -/
def upsertEntity (rows : List EntityRecord) (r : EntityRecord) : List EntityRecord :=
  match r.handle with
  | some h => rows.filter (fun q => !(q.handle == some h)) ++ [r]
  | none => rows ++ [r]

/-- `INSERT OR REPLACE INTO text_patterns ...` keyed by the UNIQUE
`pattern` column. -/
def upsertPatternStat (rows : List PatternStat) (s : PatternStat) : List PatternStat :=
  rows.filter (fun q => !(q.pattern == s.pattern)) ++ [s]

/-- Python dict update `entity_types[t] += 1` (or insert `1`),
preserving insertion order. -/
def bumpType : List (String × Nat) → String → List (String × Nat)
  | [], t => [(t, 1)]
  | (k, n) :: rest, t => if k = t then (k, n + 1) :: rest else (k, n) :: bumpType rest t

/-- Count stored in the histogram for type tag `t` (0 when absent). -/
def lookupCount (t : String) : List (String × Nat) → Nat
  | [] => 0
  | (k, n) :: rest => if k = t then n else lookupCount t rest

/-- Sum of all counts in the type histogram. -/
def histSum (hist : List (String × Nat)) : Nat :=
  (hist.map (fun p => p.2)).sum

/-- The per-type property extraction branch of `scan_all_entities`
(lines 212-227 of `server.py`): line, circle, text-like, otherwise an
empty dict. -/
def extractProps (e : LiveEntity) : EntityProps :=
  if e.objectName = "AcDbLine" then .line e.startPoint e.endPoint
  else if e.objectName = "AcDbCircle" then .circle e.center e.radius
  else if e.objectName = "AcDbText" ∨ e.objectName = "AcDbMText" then
    .text e.textString e.insertionPoint e.height
  else .empty

/-- The `cad_elements` row built for one scanned entity:
`(entity.Handle, entity.ObjectName.replace("AcDb", ""), entity.ObjectName,
entity.Layer, json.dumps(properties))`. -/
def mkRecord (e : LiveEntity) : EntityRecord :=
  { handle := some e.handle
    name := e.objectName.replace "AcDb" ""
    type := e.objectName
    layer := e.layer
    properties := extractProps e }

/-- An entity whose whole loop body in `scan_all_entities` succeeds:
neither the `Item`/`ObjectName` access nor the later property reads
raise. -/
def fullyReadable (e : LiveEntity) : Bool :=
  !e.itemReadFails && !e.propReadFails

/-- The entity loop of `scan_all_entities` (lines 199-237).  A failure
at `Item i` / `ObjectName` skips the whole body; a failure during the
type-specific property reads happens after the histogram update, so it
skips only the insert and the `count += 1`. -/
def scanLoop : List LiveEntity → Nat → List (String × Nat) → List EntityRecord →
    Nat × List (String × Nat) × List EntityRecord
  | [], count, types, rows => (count, types, rows)
  | e :: es, count, types, rows =>
    if e.itemReadFails then scanLoop es count types rows
    else if e.propReadFails then scanLoop es count (bumpType types e.objectName) rows
    else scanLoop es (count + 1) (bumpType types e.objectName)
      (upsertEntity rows (mkRecord e))

/-- Result of `scan_all_entities` as rendered to the caller. -/
inductive ScanOutcome
  | noDocument
  | success (count : Nat) (entity_types : List (String × Nat))
  deriving DecidableEq

/-- `scan_all_entities`: require an open document, `DELETE FROM
cad_elements`, iterate the model space, commit, and report the count
and the type histogram. -/
def scan_all_entities (st : AcadState) (db : Database) : ScanOutcome × Database :=
  if st.documentsCount = 0 then (.noDocument, db)
  else
    let r := scanLoop st.modelSpace 0 [] []
    (.success r.1 r.2.1, { db with cad_elements := r.2.2 })

/-- The batch of records the scan captures, in model-space order. -/
def capturedBatch (es : List LiveEntity) : List EntityRecord :=
  (es.filter fullyReadable).map mkRecord

/-- Contiguous-substring test on character lists: `pat` occurs inside
`text` (python `pat in text`). -/
def hasSubstrAux (pat : List Char) : List Char → Bool
  | [] => pat.isPrefixOf []
  | c :: cs => pat.isPrefixOf (c :: cs) || hasSubstrAux pat cs

def hasSubstr (pat text : String) : Bool :=
  hasSubstrAux pat.data text.data

/-- The match test of `count_text_patterns`: the entity is reachable,
`hasattr(entity, "TextString")` holds, and the pattern occurs in the
text (python `pattern in text`, literal substring containment). -/
def matchesText (pat : String) (e : LiveEntity) : Bool :=
  !e.itemReadFails && e.hasTextString && hasSubstr pat e.textString

/-- Number of live matches counted by one run of `count_text_patterns`. -/
def liveMatchCount (pat : String) (es : List LiveEntity) : Nat :=
  (es.filter (matchesText pat)).length

/-- Result of `count_text_patterns` as rendered to the caller. -/
inductive CountOutcome
  | noDocument
  | counted (count : Nat) (drawing : String)
  deriving DecidableEq

/-- `count_text_patterns`: require an open document, scan the model
space for text entities containing the pattern, then store
`(pattern, count, drawing)` via `INSERT OR REPLACE`. -/
def count_text_patterns (pat : String) (st : AcadState) (db : Database) :
    CountOutcome × Database :=
  if st.documentsCount = 0 then (.noDocument, db)
  else
    let c := liveMatchCount pat st.modelSpace
    (.counted c st.name,
      { db with text_patterns := upsertPatternStat db.text_patterns ⟨pat, c, st.name⟩ })

/-- `entity.Color = c` for every live entity with the given handle (in
a real document at most one entity carries a handle). -/
def setColor (st : AcadState) (h : String) (c : Int) : AcadState :=
  { st with modelSpace :=
      st.modelSpace.map (fun e => if e.handle = h then { e with color := c } else e) }

/-- Result of `highlight_entity` as rendered to the caller.  `failure`
is the outer `except` path ("Failed to highlight entity: ..."). -/
inductive HEOutcome
  | failure
  | noDocument
  | notFound (h : String)
  | highlighted (h : String) (fromColor toColor : Int)
  deriving DecidableEq

/-- `highlight_entity` (lines 250-286): `SelectionSets.Add("TempSS")`
raises when a set of that name already exists; a raise while assigning
`entity.Color` is caught by the outer handler, which returns without
deleting `TempSS`. -/
def highlight_entity (h : String) (c : Int) (st : AcadState) : HEOutcome × AcadState :=
  if st.documentsCount = 0 then (.noDocument, st)
  else if st.groups.contains "TempSS" then (.failure, st)
  else
    let st1 : AcadState := { st with groups := st.groups ++ ["TempSS"] }
    match st1.modelSpace.find? (fun e => e.handle == h) with
    | none => (.notFound h, { st1 with groups := st1.groups.filter (fun g => !(g == "TempSS")) })
    | some e =>
      if e.colorSetFails then (.failure, st1)
      else
        let st2 := setColor st1 h c
        (.highlighted h e.color c,
          { st2 with groups := st2.groups.filter (fun g => !(g == "TempSS")) })

/-- Outcome of handing one statement to the SQLite engine. -/
inductive SqlOutcome
  | rowsResult (columns : List String) (rows : List (List SqlValue))
  | writeResult (rowcount : Int)
  | sqlError (msg : String)
  deriving DecidableEq

/-- Result of `execute_query` as rendered to the caller. -/
inductive QueryToolResult
  | selectRows (columns : List String) (rows : List (List SqlValue))
  | affected (n : Int)
  | failure (msg : String)
  deriving DecidableEq

/-- Python `str.lower()` over the characters of a column name. -/
def lowerChars (s : String) : List Char :=
  s.data.map Char.toLower

/-- Python `str.strip()` followed by `str.upper()`, over characters. -/
def stripUpper (q : String) : List Char :=
  (((q.data.dropWhile Char.isWhitespace).reverse.dropWhile
      Char.isWhitespace).reverse).map Char.toUpper

/-- `query.strip().upper().startswith("SELECT")`. -/
def startsWithSelect (q : String) : Bool :=
  "SELECT".data.isPrefixOf (stripUpper q)

/-- `execute_query` (lines 465-492): run the statement, then branch on
whether the text starts with SELECT.  For a row-returning statement
that does not, sqlite reports `rowcount = -1`; a non-returning
statement whose text starts with SELECT would crash on the missing
cursor description, caught by the outer handler. -/
def execute_query (engine : String → SqlOutcome) (q : String) : QueryToolResult :=
  match engine q with
  | .sqlError msg => .failure msg
  | .rowsResult cols rows =>
    if startsWithSelect q then .selectRows cols rows
    else .affected (-1)
  | .writeResult n =>
    if startsWithSelect q then .failure "no cursor description"
    else .affected n

/-- Result of `query_and_highlight` as rendered to the caller. -/
inductive QHOutcome
  | failure (msg : String)
  | noResults
  | noHandleColumn
  | noDocument
  | highlighted (count total : Nat)
  | noneHighlighted
  deriving DecidableEq

/-- The handle-column search of `query_and_highlight` (lines 517-521):
first index whose column name lowercases to "handle". -/
def findHandleIndexFrom : Nat → List String → Option Nat
  | _, [] => none
  | i, c :: cs =>
    if lowerChars c = "handle".data then some i else findHandleIndexFrom (i + 1) cs

def findHandleIndex (cols : List String) : Option Nat :=
  findHandleIndexFrom 0 cols

/-- `temp_selection.Select(2, 0, 0, filter_type, ["HANDLE", handle])`:
a string value selects the live entity with that handle; a non-string
value selects nothing. -/
def resolveValue (es : List LiveEntity) : SqlValue → Option LiveEntity
  | .str h => es.find? (fun e => e.handle == h)
  | _ => none

/-- Whether a row value resolves against a document with the given
handle list; `resolveValue` succeeds exactly when this holds of the
document's handles. -/
def resolvesIn (hs : List String) : SqlValue → Bool
  | .str h => hs.contains h
  | _ => false

/-- The per-handle loop of `query_and_highlight` (lines 547-569).  The
code names each scratch set `Temp_{random 4-digit}`; the model uses the
loop index as the unique suffix.  When assigning `entity.Color` raises,
the `except` inside the loop swallows the error and `temp_selection`
is never deleted. -/
def processHandles (c : Int) : List SqlValue → AcadState → Nat → Nat → AcadState × Nat
  | [], st, _, count => (st, count)
  | v :: vs, st, k, count =>
    let tempName := "Temp_" ++ toString k
    let st1 : AcadState := { st with groups := st.groups ++ [tempName] }
    match resolveValue st1.modelSpace v with
    | some e =>
      if e.colorSetFails then processHandles c vs st1 (k + 1) count
      else
        let st2 := setColor st1 e.handle c
        processHandles c vs
          { st2 with groups := st2.groups.filter (fun g => !(g == tempName)) }
          (k + 1) (count + 1)
    | none =>
      processHandles c vs
        { st1 with groups := st1.groups.filter (fun g => !(g == tempName)) }
        (k + 1) count

/-- `query_and_highlight` (lines 495-579): execute the query, bail out
on zero rows, then look for the handle column, then require an open
document, replace any stale "QueryResults" selection set, process every
row's handle value, and finally either zoom and report the counts or
delete the group and report that nothing was highlighted. -/
def query_and_highlight (engine : String → SqlOutcome) (sql : String) (c : Int)
    (st : AcadState) : QHOutcome × AcadState :=
  match engine sql with
  | .sqlError msg => (.failure msg, st)
  | .writeResult _ => (.noResults, st)
  | .rowsResult cols rows =>
    if rows.isEmpty then (.noResults, st)
    else
      match findHandleIndex cols with
      | none => (.noHandleColumn, st)
      | some idx =>
        let handles := rows.map (fun r => r.getD idx SqlValue.null)
        if st.documentsCount = 0 then (.noDocument, st)
        else
          let st1 : AcadState :=
            { st with groups :=
                st.groups.filter (fun g => !(g == "QueryResults")) ++ ["QueryResults"] }
          let res := processHandles c handles st1 0 0
          if 0 < res.2 then (.highlighted res.2 handles.length, res.1)
          else (.noneHighlighted,
            { res.1 with groups := res.1.groups.filter (fun g => !(g == "QueryResults")) })

/-- A convenient base entity for concrete test documents. -/
def baseEntity : LiveEntity :=
  { handle := ""
    objectName := ""
    layer := "0"
    startPoint := []
    endPoint := []
    center := []
    radius := 0
    textString := ""
    hasTextString := false
    insertionPoint := none
    height := none
    color := 256
    itemReadFails := false
    propReadFails := false
    colorSetFails := false }

/-! ### Helper lemmas: list counting -/

theorem filter_length_add (p : α → Bool) (l : List α) :
    (l.filter p).length + (l.filter (fun a => !(p a))).length = l.length := by
  induction l with
  | nil => rfl
  | cons a l ih =>
    cases h : p a <;> simp only [List.filter_cons, h] <;> simp <;> omega

/-! ### Helper lemmas: the scan loop -/

theorem scanLoop_count (es : List LiveEntity) :
    ∀ count types rows, (scanLoop es count types rows).1
      = count + (es.filter fullyReadable).length := by
  induction es with
  | nil => intro count types rows; simp [scanLoop]
  | cons e es ih =>
    intro count types rows
    cases h1 : e.itemReadFails with
    | true => simp [scanLoop, h1, fullyReadable, ih]
    | false =>
      cases h2 : e.propReadFails with
      | true => simp [scanLoop, h1, h2, fullyReadable, ih]
      | false =>
        simp only [scanLoop, h1, h2, Bool.false_eq_true, if_false, ih,
          fullyReadable, List.filter_cons]
        simp [fullyReadable, h1, h2]
        omega

theorem scanLoop_rows (es : List LiveEntity) :
    ∀ count types rows, (scanLoop es count types rows).2.2
      = ((es.filter fullyReadable).map mkRecord).foldl upsertEntity rows := by
  induction es with
  | nil => intro count types rows; simp [scanLoop]
  | cons e es ih =>
    intro count types rows
    cases h1 : e.itemReadFails with
    | true => simp [scanLoop, h1, fullyReadable, ih]
    | false =>
      cases h2 : e.propReadFails with
      | true => simp [scanLoop, h1, h2, fullyReadable, ih]
      | false => simp [scanLoop, h1, h2, fullyReadable, ih]

theorem histSum_bumpType (hist : List (String × Nat)) (t : String) :
    histSum (bumpType hist t) = histSum hist + 1 := by
  induction hist with
  | nil => simp [bumpType, histSum]
  | cons p rest ih =>
    obtain ⟨k, n⟩ := p
    by_cases h : k = t
    · simp [bumpType, h, histSum]; omega
    · simp only [bumpType, if_neg h]
      simp only [histSum, List.map_cons, List.sum_cons] at *
      omega

theorem scanLoop_histSum (es : List LiveEntity) :
    ∀ count types rows, histSum (scanLoop es count types rows).2.1
      = histSum types + (es.filter (fun e => !e.itemReadFails)).length := by
  induction es with
  | nil => intro count types rows; simp [scanLoop]
  | cons e es ih =>
    intro count types rows
    cases h1 : e.itemReadFails with
    | true => simp [scanLoop, h1, ih]
    | false =>
      cases h2 : e.propReadFails with
      | true => simp [scanLoop, h1, h2, ih, histSum_bumpType]; omega
      | false => simp [scanLoop, h1, h2, ih, histSum_bumpType]; omega

theorem lookupCount_bumpType_self (hist : List (String × Nat)) (t : String) :
    lookupCount t (bumpType hist t) = lookupCount t hist + 1 := by
  induction hist with
  | nil => simp [bumpType, lookupCount]
  | cons p rest ih =>
    obtain ⟨k, n⟩ := p
    by_cases h : k = t
    · simp [bumpType, h, lookupCount]
    · simp [bumpType, h, lookupCount, ih]

theorem lookupCount_bumpType_ne (hist : List (String × Nat)) (t t' : String)
    (hne : t ≠ t') : lookupCount t (bumpType hist t') = lookupCount t hist := by
  induction hist with
  | nil => simp [bumpType, lookupCount, Ne.symm hne]
  | cons p rest ih =>
    obtain ⟨k, n⟩ := p
    by_cases h : k = t'
    · subst h
      simp [bumpType, lookupCount, Ne.symm hne]
    · simp [bumpType, h, lookupCount, ih]

theorem scanLoop_lookup (es : List LiveEntity) (t : String) :
    ∀ count types rows, lookupCount t (scanLoop es count types rows).2.1
      = lookupCount t types
        + (es.filter (fun e => !e.itemReadFails && e.objectName == t)).length := by
  induction es with
  | nil => intro count types rows; simp [scanLoop]
  | cons e es ih =>
    intro count types rows
    cases h1 : e.itemReadFails with
    | true => simp [scanLoop, h1, ih]
    | false =>
      by_cases h3 : e.objectName = t
      · subst h3
        cases h2 : e.propReadFails with
        | true =>
          simp [scanLoop, h1, h2, ih, lookupCount_bumpType_self]; omega
        | false =>
          simp [scanLoop, h1, h2, ih, lookupCount_bumpType_self]; omega
      · have hbeq : (e.objectName == t) = false := by
          simp [h3]
        cases h2 : e.propReadFails with
        | true =>
          simp [scanLoop, h1, h2, ih, hbeq,
            lookupCount_bumpType_ne _ _ _ (Ne.symm h3)]
        | false =>
          simp [scanLoop, h1, h2, ih, hbeq,
            lookupCount_bumpType_ne _ _ _ (Ne.symm h3)]

/-! ### Helper lemmas: INSERT OR REPLACE on `cad_elements` -/

theorem upsertEntity_nodup (acc : List EntityRecord) (r : EntityRecord)
    (h : (acc.filterMap (fun q => q.handle)).Nodup) :
    ((upsertEntity acc r).filterMap (fun q => q.handle)).Nodup := by
  cases hh : r.handle with
  | none =>
    simp only [upsertEntity, hh, List.filterMap_append]
    simpa [List.filterMap_cons, hh] using h
  | some hv =>
    simp only [upsertEntity, hh, List.filterMap_append, List.filterMap_cons]
    rw [List.nodup_append]
    refine ⟨h.sublist (List.Sublist.filterMap _ (List.filter_sublist acc)), by simp, ?_⟩
    intro a ha hb
    simp only [List.filterMap_nil, List.mem_singleton] at hb
    subst hb
    rcases List.mem_filterMap.mp ha with ⟨q, hq, hqh⟩
    have hpq := (List.mem_filter.mp hq).2
    simp [hqh] at hpq

theorem foldl_upsertEntity_nodup (batch : List EntityRecord) :
    ∀ acc, (acc.filterMap (fun q => q.handle)).Nodup →
      ((batch.foldl upsertEntity acc).filterMap (fun q => q.handle)).Nodup := by
  induction batch with
  | nil => intro acc h; simpa using h
  | cons r batch ih => intro acc h; exact ih _ (upsertEntity_nodup acc r h)

theorem foldl_upsertEntity_filter (hv : String) (batch : List EntityRecord) :
    ((batch.foldl upsertEntity []).filter (fun r => r.handle == some hv))
      = ((batch.filter (fun r => r.handle == some hv)).getLast?).toList := by
  induction batch using List.reverseRecOn with
  | nil => rfl
  | append_singleton batch r ih =>
    rw [List.foldl_append]
    simp only [List.foldl_cons, List.foldl_nil]
    cases hh : r.handle with
    | none =>
      have hpr : (r.handle == some hv) = false := by simp [hh]
      have hq : upsertEntity (batch.foldl upsertEntity []) r
          = batch.foldl upsertEntity [] ++ [r] := by
        simp [upsertEntity, hh]
      rw [hq, List.filter_append, ih]
      simp [List.filter_append, List.filter_cons, hpr]
    | some h2 =>
      have hq : upsertEntity (batch.foldl upsertEntity []) r
          = (batch.foldl upsertEntity []).filter (fun x => !(x.handle == some h2)) ++ [r] := by
        simp [upsertEntity, hh]
      by_cases he : h2 = hv
      · subst he
        have hpr : (r.handle == some h2) = true := by simp [hh]
        rw [hq, List.filter_append]
        have hnil : ((batch.foldl upsertEntity []).filter
            (fun x => !(x.handle == some h2))).filter (fun x => x.handle == some h2)
            = [] := by
          rw [List.filter_eq_nil_iff]
          intro a ha
          have hqa := (List.mem_filter.mp ha).2
          simp at hqa ⊢
          exact hqa
        rw [hnil]
        simp [List.filter_append, List.filter_cons, hpr, List.getLast?_concat]
      · have hpr : (r.handle == some hv) = false := by simp [hh, he]
        rw [hq, List.filter_append, List.filter_filter]
        have hcongr : ((batch.foldl upsertEntity []).filter
            (fun a => (a.handle == some hv) && !(a.handle == some h2)))
            = (batch.foldl upsertEntity []).filter (fun a => a.handle == some hv) := by
          apply List.filter_congr
          intro a _
          cases hpa : (a.handle == some hv) with
          | false => simp
          | true =>
            have ha : a.handle = some hv := by simpa using hpa
            simp [ha, Ne.symm he]
        rw [hcongr, ih]
        simp [List.filter_append, List.filter_cons, hpr]

/-- C9: calling the synchronization scan while no live document is open
fails with the document-unavailable outcome before the store is
touched: the stored population after the failed call is exactly the one
from before it. -/
theorem scan_no_document_leaves_store_untouched (st : AcadState) (db : Database)
    (h : st.documentsCount = 0) :
    scan_all_entities st db = (ScanOutcome.noDocument, db) := by
  simp [scan_all_entities, h]

theorem scan_no_document_leaves_store_untouched_witness :
    (AcadState.mk 0 "Drawing1.dwg" [] []).documentsCount = 0
    ∧ scan_all_entities (AcadState.mk 0 "Drawing1.dwg" [] [])
        (Database.mk [EntityRecord.mk (some "FF") "Line" "AcDbLine" "0" EntityProps.empty] [])
      = (ScanOutcome.noDocument,
        Database.mk [EntityRecord.mk (some "FF") "Line" "AcDbLine" "0" EntityProps.empty] []) :=
  ⟨rfl, scan_no_document_leaves_store_untouched _ _ rfl⟩

/-- C2: after a run of the synchronization scan with an open document,
no two stored records share a handle value; the stored population is a
full replace of the prior one (it does not depend on the prior rows and
equals the captured batch inserted into the emptied table); and on a
duplicate handle within the batch the later record wins. -/
theorem scan_replaces_population_with_unique_handles (st : AcadState) (db : Database)
    (hdoc : st.documentsCount ≠ 0) :
    (((scan_all_entities st db).2.cad_elements.filterMap (fun r => r.handle)).Nodup)
    ∧ (scan_all_entities st db).2.cad_elements
        = (capturedBatch st.modelSpace).foldl upsertEntity []
    ∧ (∀ db2 : Database,
        (scan_all_entities st db2).2.cad_elements = (scan_all_entities st db).2.cad_elements)
    ∧ (∀ hv : String,
        (scan_all_entities st db).2.cad_elements.filter (fun r => r.handle == some hv)
          = ((capturedBatch st.modelSpace).filter
              (fun r => r.handle == some hv)).getLast?.toList) := by
  have hrows : (scan_all_entities st db).2.cad_elements
      = (capturedBatch st.modelSpace).foldl upsertEntity [] := by
    simp [scan_all_entities, hdoc, scanLoop_rows, capturedBatch]
  refine ⟨?_, hrows, ?_, ?_⟩
  · rw [hrows]; exact foldl_upsertEntity_nodup _ [] (by simp)
  · intro db2; simp [scan_all_entities, hdoc]
  · intro hv; rw [hrows]; exact foldl_upsertEntity_filter hv _

theorem scan_replaces_population_with_unique_handles_witness :
    (AcadState.mk 1 "Drawing1.dwg"
        [{ baseEntity with handle := "A1", objectName := "AcDbLine" },
         { baseEntity with handle := "A1", objectName := "AcDbCircle" }] []).documentsCount ≠ 0
    ∧ (((scan_all_entities
          (AcadState.mk 1 "Drawing1.dwg"
            [{ baseEntity with handle := "A1", objectName := "AcDbLine" },
             { baseEntity with handle := "A1", objectName := "AcDbCircle" }] [])
          (Database.mk [] [])).2.cad_elements.filterMap (fun r => r.handle)).Nodup) :=
  ⟨by decide,
    (scan_replaces_population_with_unique_handles _ (Database.mk [] []) (by decide)).1⟩

/-- C4: with an open document containing N entities of which exactly
one raises a per-entity read failure, the scan completes without a
fatal error and reports N-1 captured entities. -/
theorem scan_tolerates_single_read_failure (st : AcadState) (db : Database) (N : Nat)
    (hdoc : st.documentsCount ≠ 0)
    (hlen : st.modelSpace.length = N)
    (hfail : (st.modelSpace.filter (fun e => !(fullyReadable e))).length = 1) :
    ∃ types, (scan_all_entities st db).1 = ScanOutcome.success (N - 1) types := by
  refine ⟨(scanLoop st.modelSpace 0 [] []).2.1, ?_⟩
  have hcount : (st.modelSpace.filter fullyReadable).length = N - 1 := by
    have hsplit := filter_length_add fullyReadable st.modelSpace
    omega
  simp [scan_all_entities, hdoc, scanLoop_count, hcount]

theorem scan_tolerates_single_read_failure_witness :
    (AcadState.mk 1 "Drawing1.dwg"
        [{ baseEntity with handle := "A1", objectName := "AcDbLine" },
         { baseEntity with handle := "A2", objectName := "AcDbCircle", itemReadFails := true },
         { baseEntity with handle := "A3", objectName := "AcDbLine" }] []).documentsCount ≠ 0
    ∧ (AcadState.mk 1 "Drawing1.dwg"
        [{ baseEntity with handle := "A1", objectName := "AcDbLine" },
         { baseEntity with handle := "A2", objectName := "AcDbCircle", itemReadFails := true },
         { baseEntity with handle := "A3", objectName := "AcDbLine" }] []).modelSpace.length = 3
    ∧ ∃ types,
        (scan_all_entities
          (AcadState.mk 1 "Drawing1.dwg"
            [{ baseEntity with handle := "A1", objectName := "AcDbLine" },
             { baseEntity with handle := "A2", objectName := "AcDbCircle", itemReadFails := true },
             { baseEntity with handle := "A3", objectName := "AcDbLine" }] [])
          (Database.mk [] [])).1 = ScanOutcome.success 2 types :=
  ⟨by decide, by decide,
    scan_tolerates_single_read_failure _ (Database.mk [] []) 3 (by decide) (by decide) (by decide)⟩

/-- C5 counterexample: an entity whose type tag is read but whose
property extraction then fails is counted in the type histogram yet not
in the reported total, so on this document the scan reports 0 captured
entities while the histogram sums to 1 — the histogram does not map
each type tag to the number of captured entities of that type. -/
theorem scan_histogram_counts_failed_capture :
    (scan_all_entities
        (AcadState.mk 1 "Drawing1.dwg"
          [{ baseEntity with handle := "A1", objectName := "AcDbLine", propReadFails := true }]
          [])
        (Database.mk [] [])).1
      = ScanOutcome.success 0 [("AcDbLine", 1)]
    ∧ histSum [("AcDbLine", 1)] ≠ 0 := by
  constructor
  · rfl
  · decide

/-- C5 amended: with an open document the scan reports as total the
number of fully captured entities, and the histogram maps each type tag
to the number of entities whose type tag was successfully read —
including those whose later property read failed.  Hence the
histogram's counts sum to the reported total whenever no entity fails
after its type tag was read, and on an empty document the scan reports
0 captured entities and an empty histogram. -/
theorem scan_report_characterization (st : AcadState) (db : Database)
    (hdoc : st.documentsCount ≠ 0) :
    ∃ types,
      (scan_all_entities st db).1
        = ScanOutcome.success ((st.modelSpace.filter fullyReadable).length) types
      ∧ (∀ t, lookupCount t types
          = (st.modelSpace.filter (fun e => !e.itemReadFails && e.objectName == t)).length)
      ∧ histSum types = (st.modelSpace.filter (fun e => !e.itemReadFails)).length
      ∧ ((∀ e ∈ st.modelSpace, e.itemReadFails = false → e.propReadFails = false) →
          histSum types = (st.modelSpace.filter fullyReadable).length)
      ∧ (st.modelSpace = [] →
          (st.modelSpace.filter fullyReadable).length = 0 ∧ types = []) := by
  refine ⟨(scanLoop st.modelSpace 0 [] []).2.1, ?_, ?_, ?_, ?_, ?_⟩
  · simp [scan_all_entities, hdoc, scanLoop_count]
  · intro t; simp [scanLoop_lookup, lookupCount]
  · rw [scanLoop_histSum]; simp [histSum]
  · intro hnone
    have hfe : st.modelSpace.filter (fun e => !e.itemReadFails)
        = st.modelSpace.filter fullyReadable := by
      apply List.filter_congr
      intro e he
      cases hi : e.itemReadFails with
      | true => simp [fullyReadable, hi]
      | false => simp [fullyReadable, hi, hnone e he hi]
    rw [scanLoop_histSum, hfe]; simp [histSum]
  · intro hempty
    constructor
    · simp [hempty]
    · have : st.modelSpace = ([] : List LiveEntity) := hempty
      simp [this, scanLoop]

theorem scan_report_characterization_witness :
    (AcadState.mk 1 "Drawing1.dwg" [] []).documentsCount ≠ 0
    ∧ ∃ types,
        (scan_all_entities (AcadState.mk 1 "Drawing1.dwg" [] []) (Database.mk [] [])).1
          = ScanOutcome.success
              (((AcadState.mk 1 "Drawing1.dwg" [] []).modelSpace.filter fullyReadable).length)
              types
        ∧ (∀ t, lookupCount t types
            = ((AcadState.mk 1 "Drawing1.dwg" [] []).modelSpace.filter
                (fun e => !e.itemReadFails && e.objectName == t)).length)
        ∧ histSum types
            = ((AcadState.mk 1 "Drawing1.dwg" [] []).modelSpace.filter
                (fun e => !e.itemReadFails)).length
        ∧ ((∀ e ∈ (AcadState.mk 1 "Drawing1.dwg" [] []).modelSpace,
              e.itemReadFails = false → e.propReadFails = false) →
            histSum types
              = ((AcadState.mk 1 "Drawing1.dwg" [] []).modelSpace.filter
                  fullyReadable).length)
        ∧ ((AcadState.mk 1 "Drawing1.dwg" [] []).modelSpace = [] →
            ((AcadState.mk 1 "Drawing1.dwg" [] []).modelSpace.filter
                fullyReadable).length = 0 ∧ types = []) :=
  ⟨by decide, scan_report_characterization (AcadState.mk 1 "Drawing1.dwg" [] [])
    (Database.mk [] []) (by decide)⟩

/-! ### Helper lemmas: INSERT OR REPLACE on `text_patterns` -/

theorem upsertPatternStat_filter_self (rows : List PatternStat) (s : PatternStat) :
    (upsertPatternStat rows s).filter (fun q => q.pattern == s.pattern) = [s] := by
  simp only [upsertPatternStat, List.filter_append]
  have h1 : (rows.filter (fun q => !(q.pattern == s.pattern))).filter
      (fun q => q.pattern == s.pattern) = [] := by
    rw [List.filter_eq_nil_iff]
    intro a ha
    have hq := (List.mem_filter.mp ha).2
    simp at hq ⊢
    exact hq
  rw [h1]
  simp [List.filter_cons]

theorem upsertPatternStat_nodup (rows : List PatternStat) (s : PatternStat)
    (h : (rows.map (fun q => q.pattern)).Nodup) :
    ((upsertPatternStat rows s).map (fun q => q.pattern)).Nodup := by
  simp only [upsertPatternStat, List.map_append, List.map_cons, List.map_nil]
  rw [List.nodup_append]
  refine ⟨h.sublist (List.Sublist.map _ (List.filter_sublist rows)), by simp, ?_⟩
  intro a ha hb
  simp only [List.mem_singleton] at hb
  subst hb
  rcases List.mem_map.mp ha with ⟨q, hq, hqp⟩
  have hpq := (List.mem_filter.mp hq).2
  simp [hqp] at hpq

/-- C6: with an open document, each invocation of the pattern counter
leaves exactly one stored row for the searched pattern, holding the
count computed from the current live content; a second invocation
against different live content overwrites it with the latest value
rather than accumulating; and key uniqueness of the whole table is
preserved. -/
theorem pattern_count_overwrites_single_row (P : String) (st1 st2 : AcadState)
    (db : Database) (h1 : st1.documentsCount ≠ 0) (h2 : st2.documentsCount ≠ 0) :
    ((count_text_patterns P st1 db).2.text_patterns.filter (fun s => s.pattern == P)
        = [PatternStat.mk P (liveMatchCount P st1.modelSpace) st1.name])
    ∧ ((count_text_patterns P st2 (count_text_patterns P st1 db).2).2.text_patterns.filter
          (fun s => s.pattern == P)
        = [PatternStat.mk P (liveMatchCount P st2.modelSpace) st2.name])
    ∧ ((db.text_patterns.map (fun s => s.pattern)).Nodup →
        ((count_text_patterns P st2
            (count_text_patterns P st1 db).2).2.text_patterns.map
              (fun s => s.pattern)).Nodup) := by
  refine ⟨?_, ?_, ?_⟩
  · have h := upsertPatternStat_filter_self db.text_patterns
      (PatternStat.mk P (liveMatchCount P st1.modelSpace) st1.name)
    simpa [count_text_patterns, h1] using h
  · have h := upsertPatternStat_filter_self
      (count_text_patterns P st1 db).2.text_patterns
      (PatternStat.mk P (liveMatchCount P st2.modelSpace) st2.name)
    simpa [count_text_patterns, h2] using h
  · intro hn
    have k1 := upsertPatternStat_nodup db.text_patterns
      (PatternStat.mk P (liveMatchCount P st1.modelSpace) st1.name) hn
    have k2 := upsertPatternStat_nodup
      (upsertPatternStat db.text_patterns
        (PatternStat.mk P (liveMatchCount P st1.modelSpace) st1.name))
      (PatternStat.mk P (liveMatchCount P st2.modelSpace) st2.name) k1
    simpa [count_text_patterns, h1, h2] using k2

/-- Concrete document containing one text entity matching "PMC-3M". -/
def patDocA : AcadState :=
  AcadState.mk 1 "A.dwg"
    [{ baseEntity with handle := "T1", objectName := "AcDbText", textString := "PMC-3M cable", hasTextString := true }]
    []

/-- Concrete document containing no matching text entity. -/
def patDocB : AcadState :=
  AcadState.mk 1 "B.dwg" [] []

theorem pattern_count_overwrites_single_row_witness :
    patDocA.documentsCount ≠ 0
    ∧ patDocB.documentsCount ≠ 0
    ∧ ((count_text_patterns "PMC-3M" patDocB
          (count_text_patterns "PMC-3M" patDocA (Database.mk [] [])).2).2.text_patterns.filter
            (fun s => s.pattern == "PMC-3M")
        = [PatternStat.mk "PMC-3M" (liveMatchCount "PMC-3M" patDocB.modelSpace) patDocB.name]) :=
  ⟨by decide, by decide,
    (pattern_count_overwrites_single_row "PMC-3M" patDocA patDocB (Database.mk [] [])
      (by decide) (by decide)).2.1⟩

/-! ### Helper lemmas: the handle-column search -/

theorem findHandleIndexFrom_eq_none (cols : List String)
    (h : ∀ c ∈ cols, lowerChars c ≠ "handle".data) : ∀ i, findHandleIndexFrom i cols = none := by
  induction cols with
  | nil => intro i; rfl
  | cons c cs ih =>
    intro i
    simp only [findHandleIndexFrom]
    rw [if_neg (h c (List.mem_cons_self c cs))]
    exact ih (fun x hx => h x (List.mem_cons_of_mem c hx)) (i + 1)

/-- C1 counterexample: a query whose result set has no column named
`handle` (case-insensitively) but also has zero rows is reported as the
zero-rows outcome, not the query-shape error, because
`query_and_highlight` checks `if not rows` before looking for the
handle column. -/
theorem qh_zero_rows_reports_no_results :
    query_and_highlight (fun _ => SqlOutcome.rowsResult ["name"] [])
        "SELECT name FROM cad_elements WHERE 0 = 1" 1 (AcadState.mk 1 "Drawing1.dwg" [] [])
      = (QHOutcome.noResults, AcadState.mk 1 "Drawing1.dwg" [] [])
    ∧ QHOutcome.noResults ≠ QHOutcome.noHandleColumn := by
  exact ⟨rfl, by decide⟩

/-- C1 amended: for every query whose execution yields a non-empty
result set containing no column whose name case-insensitively equals
"handle", `query_and_highlight` fails with the no-handle-column
(query-shape) error, never attempts highlighting (the application state
is returned unchanged, so no entity color is mutated), and this outcome
is distinct from the zero-rows outcome; a result set with zero rows is
reported as the zero-rows outcome even when it also lacks a handle
column. -/
theorem qh_missing_handle_column_is_shape_error (engine : String → SqlOutcome)
    (sql : String) (c : Int) (st : AcadState) (cols : List String)
    (rows : List (List SqlValue))
    (hq : engine sql = SqlOutcome.rowsResult cols rows)
    (hne : rows ≠ [])
    (hcol : ∀ col ∈ cols, lowerChars col ≠ "handle".data) :
    query_and_highlight engine sql c st = (QHOutcome.noHandleColumn, st)
    ∧ QHOutcome.noHandleColumn ≠ QHOutcome.noResults := by
  constructor
  · have hidx : findHandleIndex cols = none := findHandleIndexFrom_eq_none cols hcol 0
    have hre : rows.isEmpty = false := by
      cases rows with
      | nil => exact absurd rfl hne
      | cons r rs => rfl
    simp [query_and_highlight, hq, hre, hidx]
  · decide

theorem qh_missing_handle_column_is_shape_error_witness :
    ((fun _ => SqlOutcome.rowsResult ["name", "layer"] [[SqlValue.str "Line", SqlValue.str "0"]])
        "SELECT name, layer FROM cad_elements"
      = SqlOutcome.rowsResult ["name", "layer"] [[SqlValue.str "Line", SqlValue.str "0"]])
    ∧ ([[SqlValue.str "Line", SqlValue.str "0"]] ≠ ([] : List (List SqlValue)))
    ∧ (∀ col ∈ ["name", "layer"], lowerChars col ≠ "handle".data)
    ∧ query_and_highlight
        (fun _ => SqlOutcome.rowsResult ["name", "layer"] [[SqlValue.str "Line", SqlValue.str "0"]])
        "SELECT name, layer FROM cad_elements" 1 (AcadState.mk 1 "Drawing1.dwg" [] [])
      = (QHOutcome.noHandleColumn, AcadState.mk 1 "Drawing1.dwg" [] []) :=
  ⟨rfl, by decide, by decide,
    (qh_missing_handle_column_is_shape_error _ _ 1 (AcadState.mk 1 "Drawing1.dwg" [] [])
      ["name", "layer"] [[SqlValue.str "Line", SqlValue.str "0"]]
      rfl (by decide) (by decide)).1⟩

/-! ### Helper lemmas: per-identity resolution -/

theorem resolveValue_isSome (es : List LiveEntity) (v : SqlValue) :
    (resolveValue es v).isSome = resolvesIn (es.map (fun e => e.handle)) v := by
  cases v with
  | str h =>
    simp only [resolveValue, resolvesIn]
    induction es with
    | nil => rfl
    | cons e es ih =>
      by_cases he : e.handle = h
      · simp [List.find?_cons, List.contains_cons, he]
      · have hbe : (e.handle == h) = false := by simp [he]
        have hbe2 : (h == e.handle) = false := by simp [Ne.symm he]
        simpa [List.find?_cons, List.contains_cons, hbe, hbe2, he, Ne.symm he] using ih
  | int n => rfl
  | null => rfl

theorem resolveValue_mem (es : List LiveEntity) (v : SqlValue) (e : LiveEntity)
    (h : resolveValue es v = some e) : e ∈ es := by
  cases v with
  | str s => exact List.mem_of_find?_eq_some h
  | int n => cases h
  | null => cases h

theorem setColor_map_handle (st : AcadState) (h : String) (c : Int) :
    (setColor st h c).modelSpace.map (fun e => e.handle)
      = st.modelSpace.map (fun e => e.handle) := by
  simp only [setColor, List.map_map]
  apply List.map_congr_left
  intro e _
  by_cases he : e.handle = h <;> simp [he]

theorem setColor_noColorFail (st : AcadState) (h : String) (c : Int)
    (hcf : ∀ e ∈ st.modelSpace, e.colorSetFails = false) :
    ∀ e ∈ (setColor st h c).modelSpace, e.colorSetFails = false := by
  intro e he
  simp only [setColor, List.mem_map] at he
  rcases he with ⟨e0, he0, rfl⟩
  by_cases h0 : e0.handle = h <;> simp [h0, hcf e0 he0]

theorem processHandles_count (c : Int) (vs : List SqlValue) :
    ∀ (st : AcadState) (k count : Nat),
      (∀ e ∈ st.modelSpace, e.colorSetFails = false) →
      (processHandles c vs st k count).2
        = count + vs.countP (resolvesIn (st.modelSpace.map (fun e => e.handle))) := by
  induction vs with
  | nil => intro st k count hcf; simp [processHandles]
  | cons v vs ih =>
    intro st k count hcf
    cases hr : resolveValue st.modelSpace v with
    | none =>
      have hres : resolvesIn (st.modelSpace.map (fun e => e.handle)) v = false := by
        have hi := resolveValue_isSome st.modelSpace v
        rw [hr] at hi
        simpa using hi.symm
      simp only [processHandles, hr]
      refine Eq.trans (ih _ (k + 1) count ?_) ?_
      · exact hcf
      · simp [List.countP_cons, hres]
    | some e =>
      have hmem : e ∈ st.modelSpace := resolveValue_mem _ _ _ hr
      have hcfe : e.colorSetFails = false := hcf e hmem
      have hres : resolvesIn (st.modelSpace.map (fun e => e.handle)) v = true := by
        have hi := resolveValue_isSome st.modelSpace v
        rw [hr] at hi
        simpa using hi.symm
      simp only [processHandles, hr, hcfe, Bool.false_eq_true, if_false]
      refine Eq.trans (ih _ (k + 1) (count + 1) ?_) ?_
      · intro x hx
        exact setColor_noColorFail _ e.handle c hcf x hx
      · simp [setColor_map_handle, List.countP_cons, hres]
        omega

theorem qh_highlight_count_aux (engine : String → SqlOutcome) (sql : String) (c : Int)
    (st : AcadState) (cols : List String) (rows : List (List SqlValue)) (idx : Nat)
    (hq : engine sql = SqlOutcome.rowsResult cols rows)
    (hidx : findHandleIndex cols = some idx)
    (hne : rows ≠ [])
    (hdoc : st.documentsCount ≠ 0)
    (hcf : ∀ e ∈ st.modelSpace, e.colorSetFails = false)
    (hpos : 0 < (rows.map (fun r => r.getD idx SqlValue.null)).countP
        (resolvesIn (st.modelSpace.map (fun e => e.handle)))) :
    (query_and_highlight engine sql c st).1
      = QHOutcome.highlighted
          ((rows.map (fun r => r.getD idx SqlValue.null)).countP
            (resolvesIn (st.modelSpace.map (fun e => e.handle))))
          rows.length := by
  have hre : rows.isEmpty = false := by
    cases rows with
    | nil => exact absurd rfl hne
    | cons a l => rfl
  have hcnt : (processHandles c (rows.map (fun r => r.getD idx SqlValue.null))
      (AcadState.mk st.documentsCount st.name st.modelSpace
        (st.groups.filter (fun g => !(g == "QueryResults")) ++ ["QueryResults"])) 0 0).2
      = (rows.map (fun r => r.getD idx SqlValue.null)).countP
          (resolvesIn (st.modelSpace.map (fun e => e.handle))) := by
    refine Eq.trans (processHandles_count c _ _ 0 0 ?_) ?_
    · exact hcf
    · simp
  simp only [query_and_highlight, hq, hre, Bool.false_eq_true, if_false, hidx, hdoc]
  rw [hcnt, if_pos hpos]
  simp [List.length_map]

/-- C10: `query_and_highlight` processes one identity per returned row
with no deduplication: whenever at least one row's handle value
resolves (and no entity refuses the color assignment), the reported
highlighted count equals the number of rows whose handle value resolves
against the live document — counted with multiplicity, so a handle
appearing in k rows is counted k times — and the reported total is the
number of rows. -/
theorem qh_counts_rows_not_distinct_entities (engine : String → SqlOutcome) (sql : String)
    (c : Int) (st : AcadState) (cols : List String) (rows : List (List SqlValue)) (idx : Nat)
    (hq : engine sql = SqlOutcome.rowsResult cols rows)
    (hidx : findHandleIndex cols = some idx)
    (hne : rows ≠ [])
    (hdoc : st.documentsCount ≠ 0)
    (hcf : ∀ e ∈ st.modelSpace, e.colorSetFails = false)
    (hpos : 0 < (rows.map (fun r => r.getD idx SqlValue.null)).countP
        (resolvesIn (st.modelSpace.map (fun e => e.handle)))) :
    (query_and_highlight engine sql c st).1
      = QHOutcome.highlighted
          ((rows.map (fun r => r.getD idx SqlValue.null)).countP
            (resolvesIn (st.modelSpace.map (fun e => e.handle))))
          rows.length :=
  qh_highlight_count_aux engine sql c st cols rows idx hq hidx hne hdoc hcf hpos

theorem qh_counts_rows_not_distinct_entities_witness :
    ((fun _ => SqlOutcome.rowsResult ["handle"] [[SqlValue.str "B1"], [SqlValue.str "B1"]])
        "SELECT handle FROM cad_elements" = SqlOutcome.rowsResult ["handle"]
          [[SqlValue.str "B1"], [SqlValue.str "B1"]])
    ∧ findHandleIndex ["handle"] = some 0
    ∧ ([[SqlValue.str "B1"], [SqlValue.str "B1"]] ≠ ([] : List (List SqlValue)))
    ∧ (AcadState.mk 1 "Drawing1.dwg" [{ baseEntity with handle := "B1" }] []).documentsCount ≠ 0
    ∧ (∀ e ∈ (AcadState.mk 1 "Drawing1.dwg"
        [{ baseEntity with handle := "B1" }] []).modelSpace, e.colorSetFails = false)
    ∧ (query_and_highlight
        (fun _ => SqlOutcome.rowsResult ["handle"] [[SqlValue.str "B1"], [SqlValue.str "B1"]])
        "SELECT handle FROM cad_elements" 1
        (AcadState.mk 1 "Drawing1.dwg" [{ baseEntity with handle := "B1" }] [])).1
      = QHOutcome.highlighted 2 2 :=
  ⟨rfl, by decide, by decide, by decide, by decide,
    qh_counts_rows_not_distinct_entities _ _ 1
      (AcadState.mk 1 "Drawing1.dwg" [{ baseEntity with handle := "B1" }] [])
      ["handle"] [[SqlValue.str "B1"], [SqlValue.str "B1"]] 0
      rfl (by decide) (by decide) (by decide) (by decide) (by decide)⟩

/-- C3: a query returning 5 rows with a handle column, of which exactly
2 handle values no longer resolve against the live document (and the 3
resolving entities accept the color change), makes `query_and_highlight`
report 3 highlighted out of 5 total rows without raising an error. -/
theorem qh_partial_resolution_reports_three_of_five (engine : String → SqlOutcome)
    (sql : String) (c : Int) (st : AcadState) (cols : List String)
    (rows : List (List SqlValue)) (idx : Nat)
    (hq : engine sql = SqlOutcome.rowsResult cols rows)
    (hidx : findHandleIndex cols = some idx)
    (hdoc : st.documentsCount ≠ 0)
    (hcf : ∀ e ∈ st.modelSpace, e.colorSetFails = false)
    (hlen : rows.length = 5)
    (hres : (rows.map (fun r => r.getD idx SqlValue.null)).countP
        (resolvesIn (st.modelSpace.map (fun e => e.handle))) = 3)
    (_hunres : (rows.map (fun r => r.getD idx SqlValue.null)).countP
        (fun v => !(resolvesIn (st.modelSpace.map (fun e => e.handle)) v)) = 2) :
    (query_and_highlight engine sql c st).1 = QHOutcome.highlighted 3 5 := by
  have hne : rows ≠ [] := by
    intro h
    rw [h] at hlen
    exact absurd hlen (by decide)
  have h := qh_highlight_count_aux engine sql c st cols rows idx hq hidx hne hdoc hcf
    (by rw [hres]; decide)
  rw [hres, hlen] at h
  exact h

/-- Concrete five-row result set for the partial-resolution scenario. -/
def fiveRows : List (List SqlValue) :=
  [[SqlValue.str "H1"], [SqlValue.str "H2"], [SqlValue.str "H3"],
   [SqlValue.str "H4"], [SqlValue.str "H5"]]

/-- Concrete document resolving only H1, H2 and H3. -/
def threeOfFiveDoc : AcadState :=
  AcadState.mk 1 "Drawing1.dwg"
    [{ baseEntity with handle := "H1" }, { baseEntity with handle := "H2" },
     { baseEntity with handle := "H3" }] []

theorem qh_partial_resolution_reports_three_of_five_witness :
    ((fun _ => SqlOutcome.rowsResult ["handle"] fiveRows) "SELECT handle FROM cad_elements"
      = SqlOutcome.rowsResult ["handle"] fiveRows)
    ∧ findHandleIndex ["handle"] = some 0
    ∧ threeOfFiveDoc.documentsCount ≠ 0
    ∧ (∀ e ∈ threeOfFiveDoc.modelSpace, e.colorSetFails = false)
    ∧ fiveRows.length = 5
    ∧ (fiveRows.map (fun r => r.getD 0 SqlValue.null)).countP
        (resolvesIn (threeOfFiveDoc.modelSpace.map (fun e => e.handle))) = 3
    ∧ (fiveRows.map (fun r => r.getD 0 SqlValue.null)).countP
        (fun v => !(resolvesIn (threeOfFiveDoc.modelSpace.map (fun e => e.handle)) v)) = 2
    ∧ (query_and_highlight (fun _ => SqlOutcome.rowsResult ["handle"] fiveRows)
        "SELECT handle FROM cad_elements" 1 threeOfFiveDoc).1
      = QHOutcome.highlighted 3 5 :=
  ⟨rfl, by decide, by decide, by decide, by decide, by decide, by decide,
    qh_partial_resolution_reports_three_of_five _ _ 1 threeOfFiveDoc ["handle"] fiveRows 0
      rfl (by decide) (by decide) (by decide) (by decide) (by decide) (by decide)⟩

/-- Concrete document whose single entity raises when its color is
assigned (for example an entity on a locked layer). -/
def colorFailDoc : AcadState :=
  AcadState.mk 1 "Drawing1.dwg" [{ baseEntity with handle := "A1", colorSetFails := true }] []

/-- C7: the highlighting operations do NOT release their scoped
selection sets on exception paths.  On a document whose entity raises
during the color assignment, `highlight_entity` returns the failure
outcome while leaving the "TempSS" selection set alive, which makes the
next invocation of `highlight_entity` fail at
`SelectionSets.Add("TempSS")`; and `query_and_highlight` leaves its
per-identity scratch selection (here "Temp_0") alive after the
swallowed per-identity exception. -/
theorem highlight_leaks_groups_on_color_failure :
    (highlight_entity "A1" 1 colorFailDoc).1 = HEOutcome.failure
    ∧ (highlight_entity "A1" 1 colorFailDoc).2.groups = ["TempSS"]
    ∧ (highlight_entity "A1" 1 (highlight_entity "A1" 1 colorFailDoc).2).1 = HEOutcome.failure
    ∧ (query_and_highlight (fun _ => SqlOutcome.rowsResult ["handle"] [[SqlValue.str "A1"]])
        "SELECT handle FROM cad_elements" 1 colorFailDoc).2.groups = ["Temp_0"]
    ∧ (query_and_highlight (fun _ => SqlOutcome.rowsResult ["handle"] [[SqlValue.str "A1"]])
        "SELECT handle FROM cad_elements" 1 colorFailDoc).1 = QHOutcome.noneHighlighted := by
  refine ⟨rfl, rfl, rfl, rfl, rfl⟩

/-- C8 counterexample: a read-oriented query whose text does not start
with SELECT — here a CTE of the form `WITH ... SELECT ...` — executes
and returns rows at the store, but `execute_query` reports it through
the non-SELECT branch as an affected-rows message (sqlite rowcount -1)
and drops the column names and row values. -/
theorem execute_query_cte_rows_lost :
    execute_query
        (fun q => if q = "WITH t AS (SELECT handle FROM cad_elements) SELECT * FROM t"
          then SqlOutcome.rowsResult ["handle"] [[SqlValue.str "A1"]]
          else SqlOutcome.sqlError "unexpected")
        "WITH t AS (SELECT handle FROM cad_elements) SELECT * FROM t"
      = QueryToolResult.affected (-1)
    ∧ (∀ cols rows, QueryToolResult.affected (-1) ≠ QueryToolResult.selectRows cols rows) := by
  exact ⟨by decide, fun cols rows => by simp⟩

/-- C8 amended: `execute_query` hands every query string to the store
unvalidated.  A statement the store executes with a row result has its
column names and row values returned when (and only when) its stripped
text starts case-insensitively with SELECT; a statement on which the
store errors — malformed statements among them — is surfaced as a
failure result carrying the store's message, never silently swallowed;
and a destructive statement the store executes is reported with its
affected row count rather than being rejected up front. -/
theorem execute_query_branch_behaviour (engine : String → SqlOutcome) (q : String) :
    (∀ cols rows, engine q = SqlOutcome.rowsResult cols rows → startsWithSelect q = true →
      execute_query engine q = QueryToolResult.selectRows cols rows)
    ∧ (∀ msg, engine q = SqlOutcome.sqlError msg →
      execute_query engine q = QueryToolResult.failure msg)
    ∧ (∀ n, engine q = SqlOutcome.writeResult n → startsWithSelect q = false →
      execute_query engine q = QueryToolResult.affected n) := by
  refine ⟨?_, ?_, ?_⟩
  · intro cols rows hq hs
    simp [execute_query, hq, hs]
  · intro msg hq
    simp [execute_query, hq]
  · intro n hq hs
    simp [execute_query, hq, hs]

/-- Concrete store oracle: a well-formed SELECT, a destructive DELETE,
anything else a syntax error. -/
def engineEQ : String → SqlOutcome := fun q =>
  if q = "SELECT id FROM cad_elements" then SqlOutcome.rowsResult ["id"] [[SqlValue.int 1]]
  else if q = "DELETE FROM cad_elements" then SqlOutcome.writeResult 3
  else SqlOutcome.sqlError "near SELEC: syntax error"

theorem execute_query_branch_behaviour_witness :
    execute_query engineEQ "SELECT id FROM cad_elements"
      = QueryToolResult.selectRows ["id"] [[SqlValue.int 1]]
    ∧ execute_query engineEQ "SELEC bogus"
      = QueryToolResult.failure "near SELEC: syntax error"
    ∧ execute_query engineEQ "DELETE FROM cad_elements"
      = QueryToolResult.affected 3 :=
  ⟨(execute_query_branch_behaviour engineEQ "SELECT id FROM cad_elements").1
      ["id"] [[SqlValue.int 1]] (by decide) (by decide),
   (execute_query_branch_behaviour engineEQ "SELEC bogus").2.1
      "near SELEC: syntax error" (by decide),
   (execute_query_branch_behaviour engineEQ "DELETE FROM cad_elements").2.2
      3 (by decide) (by decide)⟩
